import Mathlib

/-!
# AndroidEngine.cpp: matrix math, EGL lifecycle and the per-frame protocol

A shallow embedding of `src/main/cpp/AndroidEngine.cpp`.

* `float` is an arbitrary field `α` (exact arithmetic); the libm functions
  `cosf`, `sinf`, `tanf`, `sqrtf` are parameters of the functions that call
  them, so every definition runs on `ℚ` and is instantiated with
  `Real.cos`, `Real.sin`, `Real.tan`, `Real.sqrt` in the theorems about the
  real-valued behaviour.
* `float*` arguments are block identifiers into a memory `Mem α`; the
  functions write their output entry by entry, in the order of the source,
  so a call whose output block is also an operand reads back what it has
  already written.
* EGL / GL calls are recorded in a trace of `Call`s; what the platform
  answers is an explicit argument.
-/

namespace AndroidEngine

/-! ## Float arrays -/

/-- Memory of float arrays: `mem.get p i` is `p[i]` for the array (block) `p`. -/
structure Mem (α : Type) where
  get : Nat → Nat → α

/-- The assignment `p[i] = v`. -/
def store {α : Type} (mem : Mem α) (p i : Nat) (v : α) : Mem α :=
  ⟨fun q k => if q = p ∧ k = i then v else mem.get q k⟩

/-- The call `memset(p, 0, n * sizeof(float))`. -/
def memset0 {α : Type} [Zero α] (mem : Mem α) (p n : Nat) : Mem α :=
  ⟨fun q k => if q = p ∧ k < n then 0 else mem.get q k⟩

/-- The 16 floats of the array `p`, in index order. -/
def read16 {α : Type} (mem : Mem α) (p : Nat) : List α :=
  (List.range 16).map (mem.get p)

/-! ## Matrix functions (lines 45-123) -/

/-- Source `mat4_identity`: `memset`, then `m[0] = m[5] = m[10] = m[15] = 1.0f`
(a chained assignment stores right to left). -/
def mat4_identity {α : Type} [Zero α] [One α] (mem : Mem α) (m : Nat) : Mem α :=
  let mem := memset0 mem m 16
  let mem := store mem m 15 1
  let mem := store mem m 10 1
  let mem := store mem m 5 1
  store mem m 0 1

/-- Body of the inner loop of `mat4_mul` (lines 53-57): the assignment to
`result[i * 4 + j]`, whose right-hand side reads the memory as it is now. -/
def mat4_mul_cell {α : Type} [Add α] [Mul α] (mem : Mem α) (result a b i j : Nat) : Mem α :=
  store mem result (i * 4 + j)
    (mem.get a (i * 4 + 0) * mem.get b (0 * 4 + j) +
     mem.get a (i * 4 + 1) * mem.get b (1 * 4 + j) +
     mem.get a (i * 4 + 2) * mem.get b (2 * 4 + j) +
     mem.get a (i * 4 + 3) * mem.get b (3 * 4 + j))

/-- Inner loop of `mat4_mul` (line 52): `for (int j = 0; j < 4; j++)`. -/
def mat4_mul_row {α : Type} [Add α] [Mul α] (mem : Mem α) (result a b i : Nat) : Mem α :=
  (List.range 4).foldl (fun mem j => mat4_mul_cell mem result a b i j) mem

/-- Source `mat4_mul` (line 51): `for (int i = 0; i < 4; i++)` around the inner
loop. Every entry of `result` is stored as soon as it is computed, so when
`result` is the same array as an operand the later entries read it back. -/
def mat4_mul {α : Type} [Add α] [Mul α] (mem : Mem α) (result a b : Nat) : Mem α :=
  (List.range 4).foldl (fun mem i => mat4_mul_row mem result a b i) mem

/-- The constant `3.14159265f`. -/
def PI_F {α : Type} [Field α] : α := 314159265 / 100000000

/-- Source `mat4_perspective`; `tanf` is the libm function. -/
def mat4_perspective {α : Type} [Field α] (tanf : α → α) (mem : Mem α) (m : Nat)
    (fovy aspect near far : α) : Mem α :=
  let f := 1 / tanf ((fovy * (1 / 2)) * (PI_F / 180))
  let mem := memset0 mem m 16
  let mem := store mem m 0 (f / aspect)
  let mem := store mem m 5 f
  let mem := store mem m 10 ((far + near) / (near - far))
  let mem := store mem m 11 (-1)
  store mem m 14 ((2 * far * near) / (near - far))

/-- The local variables of `mat4_lookAt` when it starts writing the matrix:
the three lengths it has divided by and the vectors `f`, `s`, `u`. -/
structure LookAtLocals (α : Type) where
  f_len : α
  up_len : α
  s_len : α
  f0 : α
  f1 : α
  f2 : α
  s0 : α
  s1 : α
  s2 : α
  u0 : α
  u1 : α
  u2 : α

/-- Lines 77-99 of `mat4_lookAt`; `sqrtf` is the libm function. -/
def mat4_lookAt_locals {α : Type} [Field α] (sqrtf : α → α)
    (eyeX eyeY eyeZ centerX centerY centerZ upX upY upZ : α) : LookAtLocals α :=
  let f0 := centerX - eyeX
  let f1 := centerY - eyeY
  let f2 := centerZ - eyeZ
  let f_len := sqrtf (f0 * f0 + f1 * f1 + f2 * f2)
  let f0 := f0 / f_len
  let f1 := f1 / f_len
  let f2 := f2 / f_len
  let up0 := upX
  let up1 := upY
  let up2 := upZ
  let up_len := sqrtf (up0 * up0 + up1 * up1 + up2 * up2)
  let up0 := up0 / up_len
  let up1 := up1 / up_len
  let up2 := up2 / up_len
  let s0 := f1 * up2 - f2 * up1
  let s1 := f2 * up0 - f0 * up2
  let s2 := f0 * up1 - f1 * up0
  let s_len := sqrtf (s0 * s0 + s1 * s1 + s2 * s2)
  let s0 := s0 / s_len
  let s1 := s1 / s_len
  let s2 := s2 / s_len
  let u0 := s1 * f2 - s2 * f1
  let u1 := s2 * f0 - s0 * f2
  let u2 := s0 * f1 - s1 * f0
  { f_len := f_len, up_len := up_len, s_len := s_len, f0 := f0, f1 := f1, f2 := f2,
    s0 := s0, s1 := s1, s2 := s2, u0 := u0, u1 := u1, u2 := u2 }

/-- Source `mat4_lookAt`: the locals of lines 77-99, then the stores of lines
101-113. The parameter list of the source reads `float eyeX, floatZ,`; the body
uses `eyeX`, `eyeY`, `eyeZ` and the call in `renderFrame` passes the three eye
coordinates in this order. -/
def mat4_lookAt {α : Type} [Field α] (sqrtf : α → α) (mem : Mem α) (m : Nat)
    (eyeX eyeY eyeZ centerX centerY centerZ upX upY upZ : α) : Mem α :=
  let l := mat4_lookAt_locals sqrtf eyeX eyeY eyeZ centerX centerY centerZ upX upY upZ
  let mem := mat4_identity mem m
  let mem := store mem m 0 l.s0
  let mem := store mem m 1 l.u0
  let mem := store mem m 2 (-l.f0)
  let mem := store mem m 4 l.s1
  let mem := store mem m 5 l.u1
  let mem := store mem m 6 (-l.f1)
  let mem := store mem m 8 l.s2
  let mem := store mem m 9 l.u2
  let mem := store mem m 10 (-l.f2)
  let mem := store mem m 12 (-(l.s0 * eyeX + l.s1 * eyeY + l.s2 * eyeZ))
  let mem := store mem m 13 (-(l.u0 * eyeX + l.u1 * eyeY + l.u2 * eyeZ))
  store mem m 14 (l.f0 * eyeX + l.f1 * eyeY + l.f2 * eyeZ)

/-- Source `mat4_rotateY`; `cosf` and `sinf` are the libm functions. -/
def mat4_rotateY {α : Type} [Field α] (cosf sinf : α → α) (mem : Mem α) (m : Nat)
    (angleDegrees : α) : Mem α :=
  let angle := angleDegrees * PI_F / 180
  let mem := mat4_identity mem m
  let mem := store mem m 0 (cosf angle)
  let mem := store mem m 2 (sinf angle)
  let mem := store mem m 8 (-sinf angle)
  store mem m 10 (cosf angle)


/-! ## Engine state and platform calls (lines 24-40) -/

/-- The EGL header's null display handle `EGL_NO_DISPLAY`. -/
def EGL_NO_DISPLAY : Nat := 0

/-- The EGL header's null surface handle `EGL_NO_SURFACE`. -/
def EGL_NO_SURFACE : Nat := 0

/-- The EGL header's null context handle `EGL_NO_CONTEXT`. -/
def EGL_NO_CONTEXT : Nat := 0

/-- Source `struct Engine`; handles and pointers are numbers, `0` is `NULL`. -/
structure Engine (α : Type) where
  window : Nat
  display : Nat
  surface : Nat
  context : Nat
  width : Int
  height : Int
  program : Nat
  vao : Nat
  vbo : Nat
  angle : α

/-- Source `static Engine engine = {0};`. -/
def engine {α : Type} [Zero α] : Engine α :=
  { window := 0, display := 0, surface := 0, context := 0, width := 0, height := 0,
    program := 0, vao := 0, vbo := 0, angle := 0 }

/-- The `GLenum` / `EGLint` names the engine passes. -/
inductive GLName where
  | GL_VERTEX_SHADER
  | GL_FRAGMENT_SHADER
  | GL_COMPILE_STATUS
  | GL_LINK_STATUS
  | GL_INFO_LOG_LENGTH
  | GL_DEPTH_TEST
  | EGL_WIDTH
  | EGL_HEIGHT
  deriving DecidableEq, Repr

/-- One observable step of the engine: a call into EGL, GL or the log, with the
arguments the claims look at. `fdiv x y` is not a library call: it records that
the float division `x / y` of line 399 was evaluated, with its operands. -/
inductive Call (α : Type) where
  | LOGI
  | LOGE
  | eglGetDisplay
  | eglInit (display : Nat)
  | eglChooseConfig (display : Nat)
  | eglCreateWindowSurface (display config window : Nat)
  | eglCreateContext (display config : Nat)
  | eglMakeCurrent (display draw read context : Nat)
  | eglQuerySurface (display surface : Nat) (attrib : GLName)
  | eglDestroyContext (display context : Nat)
  | eglDestroySurface (display surface : Nat)
  | eglTerminate (display : Nat)
  | eglSwapBuffers (display surface : Nat)
  | glViewport (x y width height : Int)
  | glClearColor (r g b a : α)
  | glEnable (cap : GLName)
  | glCreateShader (type : GLName)
  | glShaderSource (shader : Nat)
  | glCompileShader (shader : Nat)
  | glGetShaderiv (shader : Nat) (pname : GLName)
  | glGetShaderInfoLog (shader : Nat)
  | glDeleteShader (shader : Nat)
  | glCreateProgram
  | glAttachShader (program shader : Nat)
  | glLinkProgram (program : Nat)
  | glGetProgramiv (program : Nat) (pname : GLName)
  | glGetProgramInfoLog (program : Nat)
  | glDeleteProgram (program : Nat)
  | glGenVertexArrays
  | glBindVertexArray (array : Nat)
  | glGenBuffers
  | glBindBuffer (buffer : Nat)
  | glBufferData (floats : Nat)
  | glVertexAttribPointer (index size stride offset : Nat)
  | glEnableVertexAttribArray (index : Nat)
  | glClear
  | fdiv (x y : α)
  | glUseProgram (program : Nat)
  | glGetUniformLocation (program : Nat) (name : String)
  | glUniformMatrix4fv (location : Int) (count : Nat) (transpose : Bool) (value : List α)
  | glUniform3fv (location : Int) (count : Nat) (value : List α)
  | glDrawArrays (first count : Nat)
  deriving DecidableEq, Repr

/-- What the GL driver answers during one `loadShader`. -/
structure ShaderAnswer where
  shader : Nat
  compiled : Int
  infoLen : Int
  buf : Bool
  deriving DecidableEq, Repr

/-- What the GL driver answers during one `createProgram`. -/
structure ProgramAnswer where
  vertex : ShaderAnswer
  fragment : ShaderAnswer
  program : Nat
  linked : Int
  infoLen : Int
  buf : Bool
  deriving DecidableEq, Repr

/-- What the GL driver answers during one `initGL`. -/
structure GLAnswer where
  prog : ProgramAnswer
  vao : Nat
  vbo : Nat
  deriving DecidableEq, Repr

/-- What EGL answers during one `initEGL`; a surface query that fails writes
nothing (`none`). -/
structure EGLAnswer where
  display : Nat
  initOk : Bool
  chooseOk : Bool
  config : Nat
  surface : Nat
  context : Nat
  currentOk : Bool
  width : Option Int
  height : Option Int
  deriving DecidableEq, Repr

/-! ## Shaders (lines 128-183) -/

/-- Source `loadShader`. -/
def loadShader {α : Type} (type : GLName) (ans : ShaderAnswer) : Nat × List (Call α) :=
  let shader := ans.shader
  if shader = 0 then
    (0, [.glCreateShader type, .LOGE])
  else if ans.compiled = 0 then
    (0, [.glCreateShader type, .glShaderSource shader, .glCompileShader shader,
         .glGetShaderiv shader .GL_COMPILE_STATUS, .glGetShaderiv shader .GL_INFO_LOG_LENGTH]
        ++ (if ans.infoLen ≠ 0 ∧ ans.buf then [.glGetShaderInfoLog shader, .LOGE] else [])
        ++ [.glDeleteShader shader])
  else
    (shader, [.glCreateShader type, .glShaderSource shader, .glCompileShader shader,
              .glGetShaderiv shader .GL_COMPILE_STATUS])

/-- Source `createProgram`. -/
def createProgram {α : Type} (ans : ProgramAnswer) : Nat × List (Call α) :=
  let vertexShader := loadShader (α := α) .GL_VERTEX_SHADER ans.vertex
  let fragmentShader := loadShader (α := α) .GL_FRAGMENT_SHADER ans.fragment
  let program := ans.program
  let t := vertexShader.2 ++ fragmentShader.2 ++ [.glCreateProgram]
  if program = 0 then
    (0, t ++ [.LOGE])
  else
    let t := t ++ [.glAttachShader program vertexShader.1,
                   .glAttachShader program fragmentShader.1,
                   .glLinkProgram program, .glGetProgramiv program .GL_LINK_STATUS]
    if ans.linked = 0 then
      (0, t ++ [.glGetProgramiv program .GL_INFO_LOG_LENGTH]
            ++ (if ans.infoLen ≠ 0 ∧ ans.buf then [.glGetProgramInfoLog program, .LOGE] else [])
            ++ [.glDeleteProgram program])
    else
      (program, t)

/-! ## EGL set-up and tear-down (lines 245-295, 438-450) -/

/-- Source `initEGL`: the result of the function, the engine afterwards and the
calls made. -/
def initEGL {α : Type} (win : Nat) (ans : EGLAnswer) (eng : Engine α) :
    Bool × Engine α × List (Call α) :=
  let eng := { eng with window := win }
  let display := ans.display
  if display = EGL_NO_DISPLAY then
    (false, eng, [.eglGetDisplay, .LOGE])
  else if !ans.initOk then
    (false, eng, [.eglGetDisplay, .eglInit display, .LOGE])
  else if !ans.chooseOk then
    (false, eng, [.eglGetDisplay, .eglInit display, .eglChooseConfig display, .LOGE])
  else
    let config := ans.config
    let surface := ans.surface
    let t := [.eglGetDisplay, .eglInit display, .eglChooseConfig display,
              .eglCreateWindowSurface display config win]
    if surface = EGL_NO_SURFACE then
      (false, eng, t ++ [.LOGE])
    else
      let context := ans.context
      let t := t ++ [.eglCreateContext display config]
      if context = EGL_NO_CONTEXT then
        (false, eng, t ++ [.LOGE])
      else
        let t := t ++ [.eglMakeCurrent display surface surface context]
        if !ans.currentOk then
          (false, eng, t ++ [.LOGE])
        else
          let eng := { eng with display := display, surface := surface, context := context }
          let eng := { eng with width := ans.width.getD eng.width }
          let eng := { eng with height := ans.height.getD eng.height }
          (true, eng, t ++ [.eglQuerySurface display surface .EGL_WIDTH,
                            .eglQuerySurface display surface .EGL_HEIGHT])

/-- Source `termEGL`: the engine afterwards and the calls made. -/
def termEGL {α : Type} (eng : Engine α) : Engine α × List (Call α) :=
  let t : List (Call α) :=
    if eng.display ≠ EGL_NO_DISPLAY then
      [.eglMakeCurrent eng.display EGL_NO_SURFACE EGL_NO_SURFACE EGL_NO_CONTEXT]
      ++ (if eng.context ≠ EGL_NO_CONTEXT then [.eglDestroyContext eng.display eng.context]
          else [])
      ++ (if eng.surface ≠ EGL_NO_SURFACE then [.eglDestroySurface eng.display eng.surface]
          else [])
      ++ [.eglTerminate eng.display]
    else []
  ({ eng with display := EGL_NO_DISPLAY, context := EGL_NO_CONTEXT, surface := EGL_NO_SURFACE },
   t)

/-! ## GL set-up (lines 300-374) -/

/-- Source `initGL`; on a failed `createProgram` it returns before the vertex
array, the buffer and the angle are set. -/
def initGL {α : Type} [Field α] (ans : GLAnswer) (eng : Engine α) :
    Engine α × List (Call α) :=
  let t : List (Call α) :=
    [.glViewport 0 0 eng.width eng.height, .glClearColor (1 / 10) (1 / 10) (1 / 10) 1,
     .glEnable .GL_DEPTH_TEST]
  let p := createProgram (α := α) ans.prog
  let eng := { eng with program := p.1 }
  let t := t ++ p.2
  if eng.program = 0 then
    (eng, t ++ [.LOGE])
  else
    let eng := { eng with vao := ans.vao }
    let t := t ++ [.glGenVertexArrays, .glBindVertexArray eng.vao]
    let eng := { eng with vbo := ans.vbo }
    let t := t ++ [.glGenBuffers, .glBindBuffer eng.vbo, .glBufferData 216,
                   .glVertexAttribPointer 0 3 24 0, .glEnableVertexAttribArray 0,
                   .glVertexAttribPointer 1 3 24 12, .glEnableVertexAttribArray 1,
                   .glBindVertexArray 0]
    ({ eng with angle := 0 }, t)

/-! ## One frame (lines 379-433) -/

/-- Lines 383-385 of `renderFrame`: `angle += 1.0f; if (angle >= 360.0f) angle -= 360.0f;`. -/
def renderFrame_angle {α : Type} [LinearOrderedField α] (angle : α) : α :=
  let angle := angle + 1
  if angle ≥ 360 then angle - 360 else angle

/-- The local array `model` of `renderFrame`. -/
def MODEL : Nat := 0

/-- The local array `view` of `renderFrame`. -/
def VIEW : Nat := 1

/-- The local array `projection` of `renderFrame`. -/
def PROJECTION : Nat := 2

/-- The local array `rotY` of `renderFrame`. -/
def ROTY : Nat := 3

/-- Lines 388-400 of `renderFrame`: the four local arrays after the matrix
computations; `stack` is what the uninitialised locals hold on entry, `angle`
is `eng->angle` after the update. -/
def renderFrame_locals {α : Type} [Field α] (cosf sinf tanf sqrtf : α → α) (stack : Mem α)
    (angle : α) (width height : Int) : Mem α :=
  let mem := mat4_identity stack MODEL
  let mem := mat4_rotateY cosf sinf mem ROTY angle
  let mem := mat4_mul mem MODEL MODEL ROTY
  let mem := mat4_lookAt sqrtf mem VIEW 0 0 5 0 0 0 0 1 0
  let aspect := (width : α) / (height : α)
  mat4_perspective tanf mem PROJECTION 60 aspect (1 / 10) 100

/-- Source `renderFrame`. `uniformLocation` is the answer of
`glGetUniformLocation`; the engine afterwards and the calls made. -/
def renderFrame {α : Type} [LinearOrderedField α] (cosf sinf tanf sqrtf : α → α)
    (uniformLocation : Nat → String → Int) (stack : Mem α) (eng : Engine α) :
    Engine α × List (Call α) :=
  let eng := { eng with angle := renderFrame_angle eng.angle }
  let mem := renderFrame_locals cosf sinf tanf sqrtf stack eng.angle eng.width eng.height
  let locModel := uniformLocation eng.program "uModel"
  let locView := uniformLocation eng.program "uView"
  let locProj := uniformLocation eng.program "uProjection"
  let locLightPos := uniformLocation eng.program "uLightPos"
  let locViewPos := uniformLocation eng.program "uViewPos"
  let locLightColor := uniformLocation eng.program "uLightColor"
  let locObjColor := uniformLocation eng.program "uObjectColor"
  (eng,
   [.glClear,
    .fdiv (eng.width : α) (eng.height : α),
    .glUseProgram eng.program,
    .glGetUniformLocation eng.program "uModel",
    .glGetUniformLocation eng.program "uView",
    .glGetUniformLocation eng.program "uProjection",
    .glUniformMatrix4fv locModel 1 false (read16 mem MODEL),
    .glUniformMatrix4fv locView 1 false (read16 mem VIEW),
    .glUniformMatrix4fv locProj 1 false (read16 mem PROJECTION),
    .glGetUniformLocation eng.program "uLightPos",
    .glGetUniformLocation eng.program "uViewPos",
    .glGetUniformLocation eng.program "uLightColor",
    .glGetUniformLocation eng.program "uObjectColor",
    .glUniform3fv locLightPos 1 [5, 5, 5],
    .glUniform3fv locViewPos 1 [0, 0, 5],
    .glUniform3fv locLightColor 1 [1, 1, 1],
    .glUniform3fv locObjColor 1 [8 / 10, 5 / 10, 2 / 10],
    .glBindVertexArray eng.vao,
    .glDrawArrays 0 36,
    .glBindVertexArray 0,
    .eglSwapBuffers eng.display eng.surface])

/-! ## Commands and the main loop (lines 455-495) -/

/-- The commands `handleCmd` distinguishes. -/
inductive AppCmd where
  | APP_CMD_INIT_WINDOW
  | APP_CMD_TERM_WINDOW
  | other
  deriving DecidableEq, Repr

/-- Source `handleCmd`; `window` is `app->window`, `egl` and `gl` are what the
platform answers if the command starts an initialisation. -/
def handleCmd {α : Type} [Field α] (window : Nat) (egl : EGLAnswer) (gl : GLAnswer)
    (cmd : AppCmd) (eng : Engine α) : Engine α × List (Call α) :=
  match cmd with
  | .APP_CMD_INIT_WINDOW =>
    if window ≠ 0 then
      let r := initEGL window egl eng
      if r.1 then
        let g := initGL gl r.2.1
        (g.1, r.2.2 ++ g.2 ++ [.LOGI])
      else (r.2.1, r.2.2)
    else (eng, [])
  | .APP_CMD_TERM_WINDOW => termEGL eng
  | .other => (eng, [])

/-- One event returned by `ALooper_pollAll`: the command `source->process`
hands to `handleCmd` (`none` when `source` is `NULL` or the source carries no
command), the platform state it runs in, and `app->destroyRequested`
afterwards. -/
structure PollEvent where
  cmd : Option AppCmd
  window : Nat
  egl : EGLAnswer
  gl : GLAnswer
  destroyRequested : Bool
  deriving DecidableEq, Repr

/-- The inner `while (ALooper_pollAll(...) >= 0)` loop of `android_main` over
the pending events; the flag says that `android_main` returned. -/
def pollAll {α : Type} [Field α] :
    List PollEvent → Engine α → Engine α × List (Call α) × Bool
  | [], eng => (eng, [], false)
  | e :: es, eng =>
    let h : Engine α × List (Call α) :=
      match e.cmd with
      | some cmd => handleCmd e.window e.egl e.gl cmd eng
      | none => (eng, [])
    if e.destroyRequested then
      let r := termEGL h.1
      (r.1, h.2 ++ r.2, true)
    else
      let r := pollAll es h.1
      (r.1, h.2 ++ r.2.1, r.2.2)

/-- One iteration of the outer `while (1)` loop of `android_main`: drain the
pending events, then render if a display is present. -/
def mainLoopIteration {α : Type} [LinearOrderedField α] (cosf sinf tanf sqrtf : α → α)
    (uniformLocation : Nat → String → Int) (stack : Mem α) (events : List PollEvent)
    (eng : Engine α) : Engine α × List (Call α) × Bool :=
  let r := pollAll events eng
  if r.2.2 then r
  else if r.1.display ≠ EGL_NO_DISPLAY then
    let f := renderFrame cosf sinf tanf sqrtf uniformLocation stack r.1
    (f.1, r.2.1 ++ f.2, false)
  else r

/-- The engine states reached from the zero-initialised `engine` by calls of
`initEGL` (with any window and any answers of EGL, so succeeding or failing at
any step) and of `termEGL`. -/
inductive EGLReachable {α : Type} [Zero α] : Engine α → Prop where
  | start : EGLReachable engine
  | init (win : Nat) (ans : EGLAnswer) (eng : Engine α) :
      EGLReachable eng → EGLReachable (initEGL win ans eng).2.1
  | term (eng : Engine α) : EGLReachable eng → EGLReachable (termEGL eng).1

/-- The product `M * v` the vertex shader computes for a `mat4` uniform uploaded
by `glUniformMatrix4fv` with `transpose = GL_FALSE`: the 16 floats are read
column-major, entry (row `r`, column `c`) is `p[4 * c + r]`. -/
def mulVec {α : Type} [Add α] [Mul α] (mem : Mem α) (p : Nat) (x y z w : α) : List α :=
  (List.range 4).map fun r =>
    mem.get p (4 * 0 + r) * x + mem.get p (4 * 1 + r) * y +
    mem.get p (4 * 2 + r) * z + mem.get p (4 * 3 + r) * w

/-! ## Concrete platform answers used in the theorems -/

/-- Answers of EGL for an initialisation that succeeds on a 1920 x 1080 surface. -/
def eglAnswer1080p : EGLAnswer :=
  { display := 1, initOk := true, chooseOk := true, config := 1, surface := 2, context := 3,
    currentOk := true, width := some 1920, height := some 1080 }

/-- Answers of EGL for an initialisation that succeeds on a surface whose height
query reports 0. -/
def eglAnswerZeroHeight : EGLAnswer :=
  { display := 1, initOk := true, chooseOk := true, config := 1, surface := 2, context := 3,
    currentOk := true, width := some 1920, height := some 0 }

/-- Answers of the GL driver when both shaders compile and the link fails. -/
def glAnswerLinkFails : GLAnswer :=
  { prog := { vertex := { shader := 1, compiled := 1, infoLen := 0, buf := true },
              fragment := { shader := 2, compiled := 1, infoLen := 0, buf := true },
              program := 3, linked := 0, infoLen := 10, buf := true },
    vao := 1, vbo := 1 }

/-- The `APP_CMD_INIT_WINDOW` event in which EGL succeeds and the link fails. -/
def initWindowLinkFails : PollEvent :=
  { cmd := some .APP_CMD_INIT_WINDOW, window := 1, egl := eglAnswer1080p,
    gl := glAnswerLinkFails, destroyRequested := false }

/-! # Lemmas -/

/-! ## Reading memory -/

@[simp] theorem store_get {α : Type} (mem : Mem α) (p i : Nat) (v : α) (q k : Nat) :
    (store mem p i v).get q k = if q = p ∧ k = i then v else mem.get q k := rfl

@[simp] theorem memset0_get {α : Type} [Zero α] (mem : Mem α) (p n : Nat) (q k : Nat) :
    (memset0 mem p n).get q k = if q = p ∧ k < n then 0 else mem.get q k := rfl

theorem read16_eq {α : Type} (mem : Mem α) (p : Nat) :
    read16 mem p =
      [mem.get p 0, mem.get p 1, mem.get p 2, mem.get p 3, mem.get p 4, mem.get p 5,
       mem.get p 6, mem.get p 7, mem.get p 8, mem.get p 9, mem.get p 10, mem.get p 11,
       mem.get p 12, mem.get p 13, mem.get p 14, mem.get p 15] := rfl

theorem mulVec_eq {α : Type} [Add α] [Mul α] (mem : Mem α) (p : Nat) (x y z w : α) :
    mulVec mem p x y z w =
      [mem.get p 0 * x + mem.get p 4 * y + mem.get p 8 * z + mem.get p 12 * w,
       mem.get p 1 * x + mem.get p 5 * y + mem.get p 9 * z + mem.get p 13 * w,
       mem.get p 2 * x + mem.get p 6 * y + mem.get p 10 * z + mem.get p 14 * w,
       mem.get p 3 * x + mem.get p 7 * y + mem.get p 11 * z + mem.get p 15 * w] := rfl

/-! ## The loops of `mat4_mul` -/

theorem mat4_mul_rows {α : Type} [Add α] [Mul α] (mem : Mem α) (result a b : Nat) :
    mat4_mul mem result a b =
      mat4_mul_row (mat4_mul_row (mat4_mul_row (mat4_mul_row mem result a b 0) result a b 1)
        result a b 2) result a b 3 := by
  rw [mat4_mul, show List.range 4 = [0, 1, 2, 3] from rfl]
  simp only [List.foldl]

theorem mat4_mul_row_cells {α : Type} [Add α] [Mul α] (mem : Mem α) (result a b i : Nat) :
    mat4_mul_row mem result a b i =
      mat4_mul_cell (mat4_mul_cell (mat4_mul_cell (mat4_mul_cell mem result a b i 0)
        result a b i 1) result a b i 2) result a b i 3 := by
  rw [mat4_mul_row, show List.range 4 = [0, 1, 2, 3] from rfl]
  simp only [List.foldl]

/-- A row of the product when the output array is neither operand: the four
entries are the dot products of the row of `a` with the columns of `b`. -/
theorem mat4_mul_row_get_of_ne {α : Type} [Add α] [Mul α] (mem : Mem α) (result a b i : Nat)
    (ha : a ≠ result) (hb : b ≠ result) (q k : Nat) :
    (mat4_mul_row mem result a b i).get q k =
      if q = result ∧ i * 4 ≤ k ∧ k < i * 4 + 4 then
        mem.get a (i * 4 + 0) * mem.get b (0 * 4 + (k - i * 4)) +
        mem.get a (i * 4 + 1) * mem.get b (1 * 4 + (k - i * 4)) +
        mem.get a (i * 4 + 2) * mem.get b (2 * 4 + (k - i * 4)) +
        mem.get a (i * 4 + 3) * mem.get b (3 * 4 + (k - i * 4))
      else mem.get q k := by
  rw [mat4_mul_row_cells]
  simp only [mat4_mul_cell, store_get, ha, hb, false_and, if_false]
  by_cases hq : q = result
  · by_cases h3 : k = i * 4 + 3
    · subst h3; simp [hq]
    by_cases h2 : k = i * 4 + 2
    · subst h2; simp [hq]
    by_cases h1 : k = i * 4 + 1
    · subst h1; simp [hq]
    by_cases h0 : k = i * 4
    · subst h0; simp [hq]
    have : ¬ (i * 4 ≤ k ∧ k < i * 4 + 4) := by omega
    simp [hq, h3, h2, h1, h0, this]
  · simp [hq]

/-- The product when the output array is neither operand. -/
theorem mat4_mul_get_of_ne {α : Type} [Add α] [Mul α] (mem : Mem α) (result a b : Nat)
    (ha : a ≠ result) (hb : b ≠ result) (i j : Nat) (hi : i < 4) (hj : j < 4) :
    (mat4_mul mem result a b).get result (i * 4 + j) =
        mem.get a (i * 4 + 0) * mem.get b (0 * 4 + j) +
        mem.get a (i * 4 + 1) * mem.get b (1 * 4 + j) +
        mem.get a (i * 4 + 2) * mem.get b (2 * 4 + j) +
        mem.get a (i * 4 + 3) * mem.get b (3 * 4 + j) := by
  rw [mat4_mul_rows]
  interval_cases i <;> interval_cases j <;>
    simp [mat4_mul_row_get_of_ne, ha, hb]

/-- A row of the product when the output array is the first operand
(`mat4_mul(m, m, b)`): entry `j` of the row is computed from the entries
`0 .. j-1` already overwritten and the entries `j .. 3` still original. -/
theorem mat4_mul_row_get_inplace {α : Type} [Add α] [Mul α] (mem : Mem α) (m b i : Nat)
    (hb : b ≠ m) (q k : Nat) :
    (mat4_mul_row mem m m b i).get q k =
      let y0 := mem.get m (i * 4 + 0) * mem.get b 0 + mem.get m (i * 4 + 1) * mem.get b 4 +
                mem.get m (i * 4 + 2) * mem.get b 8 + mem.get m (i * 4 + 3) * mem.get b 12
      let y1 := y0 * mem.get b 1 + mem.get m (i * 4 + 1) * mem.get b 5 +
                mem.get m (i * 4 + 2) * mem.get b 9 + mem.get m (i * 4 + 3) * mem.get b 13
      let y2 := y0 * mem.get b 2 + y1 * mem.get b 6 +
                mem.get m (i * 4 + 2) * mem.get b 10 + mem.get m (i * 4 + 3) * mem.get b 14
      let y3 := y0 * mem.get b 3 + y1 * mem.get b 7 + y2 * mem.get b 11 +
                mem.get m (i * 4 + 3) * mem.get b 15
      if q = m ∧ k = i * 4 + 0 then y0
      else if q = m ∧ k = i * 4 + 1 then y1
      else if q = m ∧ k = i * 4 + 2 then y2
      else if q = m ∧ k = i * 4 + 3 then y3
      else mem.get q k := by
  rw [mat4_mul_row_cells]
  simp only [mat4_mul_cell, store_get, hb, false_and, if_false, true_and]
  by_cases hq : q = m
  · by_cases h3 : k = i * 4 + 3
    · subst h3; simp [hq]
    by_cases h2 : k = i * 4 + 2
    · subst h2; simp [hq]
    by_cases h1 : k = i * 4 + 1
    · subst h1; simp [hq]
    by_cases h0 : k = i * 4
    · subst h0; simp [hq]
    simp [hq, h3, h2, h1, h0]
  · simp [hq]

theorem read16_ext {α : Type} (m1 m2 : Mem α) (p q : Nat)
    (h : ∀ k, k < 16 → m1.get p k = m2.get q k) : read16 m1 p = read16 m2 q := by
  unfold read16
  apply List.map_congr_left
  intro k hk
  exact h k (List.mem_range.mp hk)

/-! ## What the matrix functions write -/

theorem mat4_identity_get {α : Type} [Zero α] [One α] (mem : Mem α) (m q k : Nat) :
    (mat4_identity mem m).get q k =
      if q = m ∧ k < 16 then (if k = 0 ∨ k = 5 ∨ k = 10 ∨ k = 15 then 1 else 0)
      else mem.get q k := by
  simp only [mat4_identity, store_get, memset0_get]
  by_cases hq : q = m
  · by_cases h0 : k = 0
    · simp [hq, h0]
    by_cases h5 : k = 5
    · simp [hq, h5]
    by_cases h10 : k = 10
    · simp [hq, h10]
    by_cases h15 : k = 15
    · simp [hq, h15]
    simp [hq, h0, h5, h10, h15]
  · simp [hq]

theorem mat4_mul_get_of_lt {α : Type} [Add α] [Mul α] (mem : Mem α) (result a b : Nat)
    (ha : a ≠ result) (hb : b ≠ result) (k : Nat) (hk : k < 16) :
    (mat4_mul mem result a b).get result k =
        mem.get a (k / 4 * 4 + 0) * mem.get b (0 * 4 + k % 4) +
        mem.get a (k / 4 * 4 + 1) * mem.get b (1 * 4 + k % 4) +
        mem.get a (k / 4 * 4 + 2) * mem.get b (2 * 4 + k % 4) +
        mem.get a (k / 4 * 4 + 3) * mem.get b (3 * 4 + k % 4) := by
  have h := mat4_mul_get_of_ne mem result a b ha hb (k / 4) (k % 4) (by omega) (by omega)
  rwa [Nat.div_add_mod'] at h

theorem mat4_rotateY_get {α : Type} [Field α] (cosf sinf : α → α) (mem : Mem α) (m : Nat)
    (d : α) (q k : Nat) :
    (mat4_rotateY cosf sinf mem m d).get q k =
      if q = m ∧ k < 16 then
        (if k = 0 ∨ k = 10 then cosf (d * PI_F / 180)
         else if k = 2 then sinf (d * PI_F / 180)
         else if k = 8 then -sinf (d * PI_F / 180)
         else if k = 5 ∨ k = 15 then 1 else 0)
      else mem.get q k := by
  simp only [mat4_rotateY, store_get, mat4_identity_get]
  by_cases hq : q = m
  · by_cases hk : k < 16
    · interval_cases k <;> simp [hq]
    · have h0 : k ≠ 0 := by omega
      have h2 : k ≠ 2 := by omega
      have h8 : k ≠ 8 := by omega
      have h10 : k ≠ 10 := by omega
      simp [hq, hk, h0, h2, h8, h10]
  · simp [hq]

theorem mat4_lookAt_get_of_ne {α : Type} [Field α] (sqrtf : α → α) (mem : Mem α) (m : Nat)
    (ex ey ez cx cy cz ux uy uz : α) (q k : Nat) (hq : q ≠ m) :
    (mat4_lookAt sqrtf mem m ex ey ez cx cy cz ux uy uz).get q k = mem.get q k := by
  simp [mat4_lookAt, mat4_identity_get, hq]

theorem mat4_perspective_get_of_ne {α : Type} [Field α] (tanf : α → α) (mem : Mem α) (m : Nat)
    (fovy aspect near far : α) (q k : Nat) (hq : q ≠ m) :
    (mat4_perspective tanf mem m fovy aspect near far).get q k = mem.get q k := by
  simp [mat4_perspective, hq]

/-- The array `model` after lines 389-392 of `renderFrame`: the in-place
`mat4_mul(model, model, rotY)` reads `model[0]` and `model[8]` back after it has
overwritten them, so entries 2 and 10 are not those of `rotY`. -/
theorem renderFrame_locals_model {α : Type} [Field α] (cosf sinf tanf sqrtf : α → α)
    (stack : Mem α) (angle : α) (width height : Int) :
    read16 (renderFrame_locals cosf sinf tanf sqrtf stack angle width height) MODEL =
      [cosf (angle * PI_F / 180), 0, cosf (angle * PI_F / 180) * sinf (angle * PI_F / 180), 0,
       0, 1, 0, 0,
       -sinf (angle * PI_F / 180), 0,
       -sinf (angle * PI_F / 180) * sinf (angle * PI_F / 180) + cosf (angle * PI_F / 180), 0,
       0, 0, 0, 1] := by
  have hm : ∀ k, (renderFrame_locals cosf sinf tanf sqrtf stack angle width height).get MODEL k =
      (mat4_mul (mat4_rotateY cosf sinf (mat4_identity stack MODEL) ROTY angle)
        MODEL MODEL ROTY).get MODEL k := by
    intro k
    unfold renderFrame_locals
    simp only []
    rw [mat4_perspective_get_of_ne _ _ _ _ _ _ _ _ _ (by decide),
      mat4_lookAt_get_of_ne _ _ _ _ _ _ _ _ _ _ _ _ _ _ (by decide)]
  simp only [read16_eq, hm, mat4_mul_rows]
  simp [mat4_mul_row_get_inplace, mat4_rotateY_get, mat4_identity_get, MODEL, ROTY]

/-- The array `projection` after line 400 of `renderFrame`. -/
theorem renderFrame_locals_projection {α : Type} [Field α] (cosf sinf tanf sqrtf : α → α)
    (stack : Mem α) (angle : α) (width height : Int) :
    read16 (renderFrame_locals cosf sinf tanf sqrtf stack angle width height) PROJECTION =
      [1 / tanf (60 * (1 / 2) * (PI_F / 180)) / ((width : α) / (height : α)), 0, 0, 0,
       0, 1 / tanf (60 * (1 / 2) * (PI_F / 180)), 0, 0,
       0, 0, (100 + 1 / 10) / (1 / 10 - 100), -1,
       0, 0, 2 * 100 * (1 / 10) / (1 / 10 - 100), 0] := by
  simp [read16_eq, renderFrame_locals, mat4_perspective]

/-! ## The angle update -/

theorem renderFrame_angle_iterate {α : Type} [LinearOrderedField α] (a : α)
    (h1 : a < 360) (n : Nat) (hn : n ≤ 360) :
    Nat.iterate renderFrame_angle n a = if a + n < 360 then a + n else a + n - 360 := by
  induction n with
  | zero => simp [h1]
  | succ n ih =>
    have hn' : (n : α) + 1 ≤ 360 := by exact_mod_cast hn
    rw [Function.iterate_succ_apply', ih (by omega)]
    unfold renderFrame_angle
    push_cast
    by_cases hlt : a + n < 360
    · simp only [hlt, if_true]
      by_cases hge : a + (n + 1) < 360
      · have : ¬ (a + n + 1 ≥ 360) := by rw [not_le]; linarith
        simp only [this, hge, if_true, if_false]; ring
      · have : a + n + 1 ≥ 360 := by rw [not_lt] at hge; linarith
        simp only [this, hge, if_true, if_false]; ring
    · have hge : ¬ (a + (n + 1) < 360) := by rw [not_lt] at hlt ⊢; linarith
      have : ¬ (a + n - 360 + 1 ≥ 360) := by rw [not_le]; linarith
      simp only [hlt, hge, this, if_false]; ring

theorem renderFrame_iterate_angle {α : Type} [LinearOrderedField α] (cosf sinf tanf sqrtf : α → α)
    (uniformLocation : Nat → String → Int) (stack : Mem α) (eng : Engine α) (n : Nat) :
    (Nat.iterate (fun e => (renderFrame cosf sinf tanf sqrtf uniformLocation stack e).1) n
      eng).angle = Nat.iterate renderFrame_angle n eng.angle := by
  induction n with
  | zero => rfl
  | succ n ih =>
    rw [Function.iterate_succ_apply', Function.iterate_succ_apply', ← ih]
    rfl

/-! # The claims -/

/-- C1 (evaluation of the code at the failing input): in the first frame after
initialisation (`angle` 0, updated to 1) the seventh call of `renderFrame` is
the upload of `uModel`, and the matrix it uploads is not `mat4_rotateY(1)`: its
entry 2 is `cos t * sin t` where `mat4_rotateY` has `sin t`
(`t = 1 * 3.14159265 / 180`), because `mat4_mul(model, model, rotY)` has already
overwritten `model[0]` when it computes `model[2]`. -/
theorem renderFrame_uModel_ne_rotateY (uniformLocation : Nat → String → Int)
    (stack mem : Mem ℝ) (p : Nat) (eng : Engine ℝ) :
    ∃ M : List ℝ,
      (renderFrame Real.cos Real.sin Real.tan Real.sqrt uniformLocation stack
        { eng with angle := 0 }).1.angle = 1 ∧
      (renderFrame Real.cos Real.sin Real.tan Real.sqrt uniformLocation stack
        { eng with angle := 0 }).2[6]? =
          some (Call.glUniformMatrix4fv (uniformLocation eng.program "uModel") 1 false M) ∧
      M[2]? = some (Real.cos (1 * PI_F / 180) * Real.sin (1 * PI_F / 180)) ∧
      (read16 (mat4_rotateY Real.cos Real.sin mem p 1) p)[2]? = some (Real.sin (1 * PI_F / 180)) ∧
      M ≠ read16 (mat4_rotateY Real.cos Real.sin mem p 1) p := by
  have hangle : renderFrame_angle (0 : ℝ) = 1 := by
    unfold renderFrame_angle
    norm_num
  have hpos : 0 < Real.sin (1 * PI_F / 180) := by
    apply Real.sin_pos_of_pos_of_lt_pi
    · unfold PI_F; norm_num
    · have := Real.pi_gt_three
      unfold PI_F
      norm_num
      linarith
  have hne : Real.cos (1 * PI_F / 180) * Real.sin (1 * PI_F / 180) ≠ Real.sin (1 * PI_F / 180) := by
    intro h
    have hc : Real.cos (1 * PI_F / 180) = 1 := by
      have := mul_right_cancel₀ hpos.ne' (h.trans (one_mul _).symm)
      exact this
    have := Real.sin_sq_add_cos_sq (1 * PI_F / 180)
    rw [hc] at this
    have hz : Real.sin (1 * PI_F / 180) ^ 2 = 0 := by linarith
    exact hpos.ne' (pow_eq_zero_iff (by norm_num) |>.mp hz)
  refine ⟨read16 (renderFrame_locals Real.cos Real.sin Real.tan Real.sqrt stack 1
    eng.width eng.height) MODEL, ?_, ?_, ?_, ?_, ?_⟩
  · simp [renderFrame, hangle]
  · simp [renderFrame, hangle]
  · rw [renderFrame_locals_model]; rfl
  · simp [read16_eq, mat4_rotateY_get]
  · rw [renderFrame_locals_model]
    simp only [read16_eq, mat4_rotateY_get]
    intro h
    simp at h
    exact hne (by simpa using h.1)

/-- An iteration of the main loop with no pending event renders whenever the
display is valid, whatever `program` is. -/
theorem mainLoopIteration_idle_calls {α : Type} [LinearOrderedField α]
    (cosf sinf tanf sqrtf : α → α) (uniformLocation : Nat → String → Int) (stack : Mem α)
    (eng : Engine α) (h : eng.display ≠ EGL_NO_DISPLAY) :
    (mainLoopIteration cosf sinf tanf sqrtf uniformLocation stack [] eng).2.1 =
      (renderFrame cosf sinf tanf sqrtf uniformLocation stack eng).2 := by
  simp [mainLoopIteration, pollAll, h]

/-- C2 (evaluation of the code at the failing input): the iteration that handles
`APP_CMD_INIT_WINDOW` with a failing link leaves a valid display and
`program = 0`; the next iteration, with no pending event, still calls
`renderFrame`, which uses program 0 and issues `glDrawArrays(GL_TRIANGLES, 0, 36)`. -/
theorem mainLoop_draws_with_program_zero {α : Type} [LinearOrderedField α]
    (cosf sinf tanf sqrtf : α → α) (uniformLocation : Nat → String → Int) (stack : Mem α) :
    (mainLoopIteration cosf sinf tanf sqrtf uniformLocation stack [initWindowLinkFails]
      engine).1.display ≠ EGL_NO_DISPLAY ∧
    (mainLoopIteration cosf sinf tanf sqrtf uniformLocation stack [initWindowLinkFails]
      engine).1.program = 0 ∧
    Call.glUseProgram 0 ∈ (mainLoopIteration cosf sinf tanf sqrtf uniformLocation stack []
      (mainLoopIteration cosf sinf tanf sqrtf uniformLocation stack [initWindowLinkFails]
        engine).1).2.1 ∧
    Call.glDrawArrays 0 36 ∈ (mainLoopIteration cosf sinf tanf sqrtf uniformLocation stack []
      (mainLoopIteration cosf sinf tanf sqrtf uniformLocation stack [initWindowLinkFails]
        engine).1).2.1 := by
  have h : (pollAll [initWindowLinkFails] (engine : Engine α)).1.display = 1 ∧
      (pollAll [initWindowLinkFails] (engine : Engine α)).1.program = 0 ∧
      (pollAll [initWindowLinkFails] (engine : Engine α)).2.2 = false := by
    simp [pollAll, initWindowLinkFails, handleCmd, initEGL, initGL, createProgram,
      eglAnswer1080p, glAnswerLinkFails, EGL_NO_DISPLAY, EGL_NO_SURFACE, EGL_NO_CONTEXT]
  obtain ⟨hd, hp, hr⟩ := h
  have h1 : (mainLoopIteration cosf sinf tanf sqrtf uniformLocation stack [initWindowLinkFails]
      engine).1.display = 1 ∧
      (mainLoopIteration cosf sinf tanf sqrtf uniformLocation stack [initWindowLinkFails]
      engine).1.program = 0 := by
    simp [mainLoopIteration, hr, hd, hp, EGL_NO_DISPLAY, renderFrame]
  obtain ⟨hd1, hp1⟩ := h1
  have hv : (mainLoopIteration cosf sinf tanf sqrtf uniformLocation stack [initWindowLinkFails]
      engine).1.display ≠ EGL_NO_DISPLAY := by rw [hd1]; decide
  refine ⟨hv, hp1, ?_, ?_⟩
  · rw [mainLoopIteration_idle_calls _ _ _ _ _ _ _ hv]
    simp [renderFrame, hp1]
  · rw [mainLoopIteration_idle_calls _ _ _ _ _ _ _ hv]
    simp [renderFrame]

/-- C3: with an output array that is neither operand, multiplying by the
matrix written by `mat4_identity`, on the left and on the right, leaves the 16
entries of the other operand `M` in `result`. -/
theorem mat4_mul_identity_unit {α : Type} [Field α] (mem : Mem α) (result I M : Nat)
    (hI : result ≠ I) (hM : result ≠ M) :
    read16 (mat4_mul (mat4_identity mem I) result I M) result = read16 (mat4_identity mem I) M ∧
    read16 (mat4_mul (mat4_identity mem I) result M I) result = read16 (mat4_identity mem I) M := by
  constructor
  · apply read16_ext
    intro k hk
    rw [mat4_mul_get_of_lt _ _ _ _ hI.symm hM.symm k hk]
    interval_cases k <;> simp [mat4_identity_get]
  · apply read16_ext
    intro k hk
    rw [mat4_mul_get_of_lt _ _ _ _ hM.symm hI.symm k hk]
    interval_cases k <;> simp [mat4_identity_get]

/-- Witness for C3: the matrix with entries 1 .. 16 in array 1, the identity in
array 0, the product in array 2. -/
theorem mat4_mul_identity_unit_witness :
    (2 : Nat) ≠ 0 ∧ (2 : Nat) ≠ 1 ∧
    read16 (mat4_mul (mat4_identity (Mem.mk fun _ k => ((k : ℚ) + 1)) 0) 2 0 1) 2 =
      [1, 2, 3, 4, 5, 6, 7, 8, 9, 10, 11, 12, 13, 14, 15, 16] ∧
    read16 (mat4_mul (mat4_identity (Mem.mk fun _ k => ((k : ℚ) + 1)) 0) 2 1 0) 2 =
      [1, 2, 3, 4, 5, 6, 7, 8, 9, 10, 11, 12, 13, 14, 15, 16] := by
  have h := mat4_mul_identity_unit (Mem.mk fun _ k => ((k : ℚ) + 1)) 2 0 1 (by decide) (by decide)
  have e : read16 (mat4_identity (Mem.mk fun _ k => ((k : ℚ) + 1)) 0) 1 =
      [1, 2, 3, 4, 5, 6, 7, 8, 9, 10, 11, 12, 13, 14, 15, 16] := by
    simp [read16_eq, mat4_identity_get]
    norm_num
  rw [e] at h
  exact ⟨by decide, by decide, h.1, h.2⟩

/-- C4: from an angle in `[0, 360)`, 360 successive frames bring `eng->angle`
back to its starting value. -/
theorem renderFrame_angle_period {α : Type} [LinearOrderedField α] (cosf sinf tanf sqrtf : α → α)
    (uniformLocation : Nat → String → Int) (stack : Mem α) (eng : Engine α)
    (h0 : 0 ≤ eng.angle) (h1 : eng.angle < 360) :
    (Nat.iterate (fun e => (renderFrame cosf sinf tanf sqrtf uniformLocation stack e).1) 360
      eng).angle = eng.angle := by
  rw [renderFrame_iterate_angle, renderFrame_angle_iterate _ h1 360 le_rfl]
  have : ¬ (eng.angle + ((360 : Nat) : α) < 360) := by
    push_cast
    rw [not_lt]
    linarith
  rw [if_neg this]
  push_cast
  ring

/-- Witness for C4: starting from the zero-initialised engine, whose angle is 0,
the angle is 0 again after 360 frames. -/
theorem renderFrame_angle_period_witness :
    (0 : ℚ) ≤ (engine : Engine ℚ).angle ∧ (engine : Engine ℚ).angle < 360 ∧
    (Nat.iterate (fun e => (renderFrame (fun x => x) (fun x => x) (fun x => x) (fun x => x)
      (fun _ _ => 0) (Mem.mk fun _ _ => 0) e).1) 360 (engine : Engine ℚ)).angle = 0 :=
  ⟨by simp [engine], by simp [engine],
   renderFrame_angle_period (fun x => x) (fun x => x) (fun x => x) (fun x => x)
     (fun _ _ => 0) (Mem.mk fun _ _ => 0) (engine : Engine ℚ) (by simp [engine])
     (by simp [engine])⟩

/-- C5: in every state reached from the zero-initialised engine by `initEGL`
calls (succeeding or failing at any step) and `termEGL` calls, the display,
surface and context handles are all valid or all at their invalid sentinel. -/
theorem egl_handles_all_or_none {α : Type} [Zero α] (eng : Engine α) (h : EGLReachable eng) :
    (eng.display ≠ EGL_NO_DISPLAY ∧ eng.surface ≠ EGL_NO_SURFACE ∧
      eng.context ≠ EGL_NO_CONTEXT) ∨
    (eng.display = EGL_NO_DISPLAY ∧ eng.surface = EGL_NO_SURFACE ∧
      eng.context = EGL_NO_CONTEXT) := by
  induction h with
  | start => right; exact ⟨rfl, rfl, rfl⟩
  | init win ans eng _ ih =>
    unfold initEGL
    simp only []
    split_ifs with h1 h2 h3 h4 h5 h6
    · exact ih
    · exact ih
    · exact ih
    · exact ih
    · exact ih
    · exact ih
    · left; exact ⟨h1, h4, h5⟩
  | term eng _ _ => right; exact ⟨rfl, rfl, rfl⟩

/-- Witness for C5: after a successful `initEGL` on the zero-initialised engine
all three handles are valid. -/
theorem egl_handles_all_or_none_witness :
    EGLReachable (initEGL 1 eglAnswer1080p (engine : Engine ℚ)).2.1 ∧
    ((initEGL 1 eglAnswer1080p (engine : Engine ℚ)).2.1.display ≠ EGL_NO_DISPLAY ∧
     (initEGL 1 eglAnswer1080p (engine : Engine ℚ)).2.1.surface ≠ EGL_NO_SURFACE ∧
     (initEGL 1 eglAnswer1080p (engine : Engine ℚ)).2.1.context ≠ EGL_NO_CONTEXT) := by
  refine ⟨EGLReachable.init 1 eglAnswer1080p engine EGLReachable.start, ?_⟩
  have h := egl_handles_all_or_none (initEGL 1 eglAnswer1080p (engine : Engine ℚ)).2.1
    (EGLReachable.init 1 eglAnswer1080p engine EGLReachable.start)
  rcases h with h | h
  · exact h
  · exact absurd h.1 (by decide)

/-- C6: `termEGL` is idempotent: a second `termEGL` makes no call and leaves the
state of the first; and whenever the display is already `EGL_NO_DISPLAY`,
`termEGL` makes no call and leaves the three handles at their sentinels. -/
theorem termEGL_idempotent {α : Type} (eng : Engine α) :
    termEGL (termEGL eng).1 = ((termEGL eng).1, []) ∧
    (eng.display = EGL_NO_DISPLAY →
      (termEGL eng).2 = [] ∧ (termEGL eng).1.display = EGL_NO_DISPLAY ∧
      (termEGL eng).1.surface = EGL_NO_SURFACE ∧ (termEGL eng).1.context = EGL_NO_CONTEXT) := by
  constructor
  · simp [termEGL]
  · intro h
    simp [termEGL, h]

/-- Witness for C6: the zero-initialised engine, which was never initialised. -/
theorem termEGL_idempotent_witness :
    (engine : Engine ℚ).display = EGL_NO_DISPLAY ∧
    termEGL (termEGL (engine : Engine ℚ)).1 = ((termEGL (engine : Engine ℚ)).1, []) ∧
    (termEGL (engine : Engine ℚ)).2 = [] :=
  ⟨rfl, (termEGL_idempotent (engine : Engine ℚ)).1,
   ((termEGL_idempotent (engine : Engine ℚ)).2 rfl).1⟩

/-- C7: when `eye != center`, `up` is non-zero and `up` is not parallel to
`center - eye`, none of the three lengths `mat4_lookAt` divides by is zero, and
the view matrix, read column-major as the shader does, maps the unit forward
direction `(center - eye) / |center - eye|` (with `w = 0`) to `(0, 0, -1, 0)`. -/
theorem mat4_lookAt_forward (mem : Mem ℝ) (m : Nat) (ex ey ez cx cy cz ux uy uz : ℝ)
    (hf : ¬ (cx - ex = 0 ∧ cy - ey = 0 ∧ cz - ez = 0))
    (hu : ¬ (ux = 0 ∧ uy = 0 ∧ uz = 0))
    (hs : ¬ ((cy - ey) * uz - (cz - ez) * uy = 0 ∧ (cz - ez) * ux - (cx - ex) * uz = 0 ∧
             (cx - ex) * uy - (cy - ey) * ux = 0)) :
    (mat4_lookAt_locals Real.sqrt ex ey ez cx cy cz ux uy uz).f_len ≠ 0 ∧
    (mat4_lookAt_locals Real.sqrt ex ey ez cx cy cz ux uy uz).up_len ≠ 0 ∧
    (mat4_lookAt_locals Real.sqrt ex ey ez cx cy cz ux uy uz).s_len ≠ 0 ∧
    mulVec (mat4_lookAt Real.sqrt mem m ex ey ez cx cy cz ux uy uz) m
      ((cx - ex) / Real.sqrt ((cx - ex) * (cx - ex) + (cy - ey) * (cy - ey) + (cz - ez) * (cz - ez)))
      ((cy - ey) / Real.sqrt ((cx - ex) * (cx - ex) + (cy - ey) * (cy - ey) + (cz - ez) * (cz - ez)))
      ((cz - ez) / Real.sqrt ((cx - ex) * (cx - ex) + (cy - ey) * (cy - ey) + (cz - ez) * (cz - ez)))
      0 = [0, 0, -1, 0] := by
  have sumsq : ∀ a b c : ℝ, ¬ (a = 0 ∧ b = 0 ∧ c = 0) → 0 < a * a + b * b + c * c := by
    intro a b c h
    by_contra hcon
    apply h
    have h0 := mul_self_nonneg a
    have h1 := mul_self_nonneg b
    have h2 := mul_self_nonneg c
    refine ⟨?_, ?_, ?_⟩ <;> apply mul_self_eq_zero.mp <;> linarith
  have hL : Real.sqrt ((cx - ex) * (cx - ex) + (cy - ey) * (cy - ey) + (cz - ez) * (cz - ez)) ≠ 0 :=
    (Real.sqrt_pos.mpr (sumsq _ _ _ hf)).ne'
  have hU : Real.sqrt (ux * ux + uy * uy + uz * uz) ≠ 0 :=
    (Real.sqrt_pos.mpr (sumsq _ _ _ hu)).ne'
  refine ⟨hL, hU, ?_, ?_⟩
  · simp only [mat4_lookAt_locals]
    refine (Real.sqrt_pos.mpr (sumsq _ _ _ ?_)).ne'
    rintro ⟨h0, h1, h2⟩
    apply hs
    refine ⟨?_, ?_, ?_⟩
    · field_simp at h0
      linarith
    · field_simp at h1
      linarith
    · field_simp at h2
      linarith
  · rw [mulVec_eq]
    simp only [mat4_lookAt, mat4_lookAt_locals, store_get, mat4_identity_get]
    norm_num
    have hLL := Real.mul_self_sqrt (sumsq _ _ _ hf).le
    generalize Real.sqrt ((cx - ex) * (cx - ex) + (cy - ey) * (cy - ey) +
      (cz - ez) * (cz - ez)) = L at hL hLL ⊢
    refine ⟨?_, ?_, ?_⟩
    · ring
    · ring
    · have h1 : ∀ a : ℝ, a / L * (a / L) = a * a / (L * L) := fun a => div_mul_div_comm a L a L
      have e : (cx - ex) / L * ((cx - ex) / L) + (cy - ey) / L * ((cy - ey) / L) +
          (cz - ez) / L * ((cz - ez) / L) = 1 := by
        rw [h1, h1, h1, ← add_div, ← add_div, ← hLL]
        exact div_self (mul_ne_zero hL hL)
      linarith

/-- Witness for C7: the engine's camera, `eye = (0,0,5)`, `center = (0,0,0)`,
`up = (0,1,0)`: the forward vector `(0,0,-1)` is mapped to `(0,0,-1)`. -/
theorem mat4_lookAt_forward_witness :
    mulVec (mat4_lookAt Real.sqrt (Mem.mk fun _ _ => 0) VIEW 0 0 5 0 0 0 0 1 0) VIEW
      0 0 (-1) 0 = [0, 0, -1, 0] := by
  have h := (mat4_lookAt_forward (Mem.mk fun _ _ => 0) VIEW 0 0 5 0 0 0 0 1 0
    (by norm_num) (by norm_num) (by norm_num)).2.2.2
  have e : Real.sqrt ((0 - 0) * (0 - 0) + (0 - 0) * (0 - 0) + (0 - 5) * (0 - 5)) = 5 := by
    rw [show ((0 : ℝ) - 0) * (0 - 0) + (0 - 0) * (0 - 0) + (0 - 5) * (0 - 5) = 5 * 5 by norm_num]
    exact Real.sqrt_mul_self (by norm_num)
  rw [e] at h
  norm_num at h
  exact h

/-- C8 (evaluation of the code at the failing input): read column-major, as
`glUniformMatrix4fv` with `transpose = GL_FALSE` reads it, `mat4_rotateY(d)`
maps `+X` to `(cos t, 0, sin t, 0)` and `+Z` to `(-sin t, 0, cos t, 0)`, the
rotation by `-t`; at `d = 1` these are not the right-handed images
`(cos t, 0, -sin t, 0)` and `(sin t, 0, cos t, 0)`. -/
theorem mat4_rotateY_column_major (mem : Mem ℝ) (p : Nat) :
    (∀ d : ℝ,
      mulVec (mat4_rotateY Real.cos Real.sin mem p d) p 1 0 0 0 =
        [Real.cos (d * PI_F / 180), 0, Real.sin (d * PI_F / 180), 0] ∧
      mulVec (mat4_rotateY Real.cos Real.sin mem p d) p 0 0 1 0 =
        [-Real.sin (d * PI_F / 180), 0, Real.cos (d * PI_F / 180), 0]) ∧
    mulVec (mat4_rotateY Real.cos Real.sin mem p 1) p 1 0 0 0 ≠
      [Real.cos (1 * PI_F / 180), 0, -Real.sin (1 * PI_F / 180), 0] ∧
    mulVec (mat4_rotateY Real.cos Real.sin mem p 1) p 0 0 1 0 ≠
      [Real.sin (1 * PI_F / 180), 0, Real.cos (1 * PI_F / 180), 0] := by
  have hpos : 0 < Real.sin (1 * PI_F / 180) := by
    apply Real.sin_pos_of_pos_of_lt_pi
    · unfold PI_F; norm_num
    · have := Real.pi_gt_three
      unfold PI_F
      norm_num
      linarith
  have hgen : ∀ d : ℝ,
      mulVec (mat4_rotateY Real.cos Real.sin mem p d) p 1 0 0 0 =
        [Real.cos (d * PI_F / 180), 0, Real.sin (d * PI_F / 180), 0] ∧
      mulVec (mat4_rotateY Real.cos Real.sin mem p d) p 0 0 1 0 =
        [-Real.sin (d * PI_F / 180), 0, Real.cos (d * PI_F / 180), 0] := by
    intro d
    simp [mulVec_eq, mat4_rotateY_get]
  refine ⟨hgen, ?_, ?_⟩
  · rw [(hgen 1).1]
    intro h
    simp only [List.cons.injEq] at h
    linarith [h.2.2.1]
  · rw [(hgen 1).2]
    intro h
    simp only [List.cons.injEq] at h
    linarith [h.1]

/-- C9: for every stored width and every stored height other than 0, the
second step of `renderFrame` is the float division of the converted integers,
and entries 0 and 5 of the projection matrix uploaded as `uProjection` are
`f / (width / height)` and `f`, with `f = 1 / tan(30 * 3.14159265 / 180)`; for
1920 x 1080 the quotient is `16 / 9`. -/
theorem renderFrame_projection_aspect {α : Type} [LinearOrderedField α]
    (cosf sinf tanf sqrtf : α → α) (uniformLocation : Nat → String → Int) (stack : Mem α)
    (eng : Engine α) (h : eng.height ≠ 0) :
    ∃ P : List α,
      (renderFrame cosf sinf tanf sqrtf uniformLocation stack eng).2[1]? =
        some (Call.fdiv (eng.width : α) (eng.height : α)) ∧
      (eng.height : α) ≠ 0 ∧
      (renderFrame cosf sinf tanf sqrtf uniformLocation stack eng).2[8]? =
        some (Call.glUniformMatrix4fv (uniformLocation eng.program "uProjection") 1 false P) ∧
      P[0]? = some (1 / tanf (30 * PI_F / 180) / ((eng.width : α) / (eng.height : α))) ∧
      P[5]? = some (1 / tanf (30 * PI_F / 180)) ∧
      (eng.width = 1920 → eng.height = 1080 →
        (eng.width : α) / (eng.height : α) = 16 / 9 ∧
        P[0]? = some (1 / tanf (30 * PI_F / 180) / (16 / 9))) := by
  have hang : (60 : α) * (1 / 2) * (PI_F / 180) = 30 * PI_F / 180 := by ring
  refine ⟨read16 (renderFrame_locals cosf sinf tanf sqrtf stack (renderFrame_angle eng.angle)
    eng.width eng.height) PROJECTION, ?_, ?_, ?_, ?_, ?_, ?_⟩
  · simp [renderFrame]
  · exact_mod_cast h
  · simp [renderFrame]
  · rw [renderFrame_locals_projection, hang]; rfl
  · rw [renderFrame_locals_projection, hang]; rfl
  · intro hw hh
    have hq : (eng.width : α) / (eng.height : α) = 16 / 9 := by
      rw [hw, hh]; norm_num
    refine ⟨hq, ?_⟩
    rw [renderFrame_locals_projection, hang, hq]; rfl

/-- Witness for C9: the engine after a successful `initEGL` on a 1920 x 1080
surface. -/
theorem renderFrame_projection_aspect_witness :
    (initEGL 1 eglAnswer1080p (engine : Engine ℝ)).2.1.height ≠ 0 ∧
    ∃ P : List ℝ,
      (renderFrame Real.cos Real.sin Real.tan Real.sqrt (fun _ _ => 0) (Mem.mk fun _ _ => 0)
        (initEGL 1 eglAnswer1080p (engine : Engine ℝ)).2.1).2[8]? =
        some (Call.glUniformMatrix4fv 0 1 false P) ∧
      P[0]? = some (1 / Real.tan (30 * PI_F / 180) / (16 / 9)) ∧
      P[5]? = some (1 / Real.tan (30 * PI_F / 180)) := by
  have hh : (initEGL 1 eglAnswer1080p (engine : Engine ℝ)).2.1.height = 1080 := by
    simp [initEGL, eglAnswer1080p, EGL_NO_DISPLAY, EGL_NO_SURFACE, EGL_NO_CONTEXT]
  have hw : (initEGL 1 eglAnswer1080p (engine : Engine ℝ)).2.1.width = 1920 := by
    simp [initEGL, eglAnswer1080p, EGL_NO_DISPLAY, EGL_NO_SURFACE, EGL_NO_CONTEXT]
  have hne : (initEGL 1 eglAnswer1080p (engine : Engine ℝ)).2.1.height ≠ 0 := by
    rw [hh]; decide
  obtain ⟨P, _, _, h8, _, h5, hq⟩ :=
    renderFrame_projection_aspect Real.cos Real.sin Real.tan Real.sqrt (fun _ _ => 0)
      (Mem.mk fun _ _ => 0) (initEGL 1 eglAnswer1080p (engine : Engine ℝ)).2.1 hne
  exact ⟨hne, P, h8, (hq hw hh).2, h5⟩

/-- C10, the claim as stated fails: after a successful `initEGL` whose height
query reports 0 the context is valid and the stored height is 0, and
`renderFrame` evaluates `1920 / 0`. -/
theorem renderFrame_divides_by_zero_height :
    (initEGL 1 eglAnswerZeroHeight (engine : Engine ℝ)).1 = true ∧
    (initEGL 1 eglAnswerZeroHeight (engine : Engine ℝ)).2.1.display ≠ EGL_NO_DISPLAY ∧
    (initEGL 1 eglAnswerZeroHeight (engine : Engine ℝ)).2.1.context ≠ EGL_NO_CONTEXT ∧
    (initEGL 1 eglAnswerZeroHeight (engine : Engine ℝ)).2.1.height = 0 ∧
    Call.fdiv (1920 : ℝ) 0 ∈
      (renderFrame Real.cos Real.sin Real.tan Real.sqrt (fun _ _ => 0) (Mem.mk fun _ _ => 0)
        (initEGL 1 eglAnswerZeroHeight (engine : Engine ℝ)).2.1).2 := by
  simp [initEGL, eglAnswerZeroHeight, EGL_NO_DISPLAY, EGL_NO_SURFACE, EGL_NO_CONTEXT,
    renderFrame]

/-- C10 as amended: `renderFrame` has no zero-height guard. In every engine
state it evaluates exactly one float division, `(float)width / (float)height`
with the stored values, whose divisor is zero exactly when the stored height is
0; the quotient is the aspect `mat4_perspective` builds the uploaded projection
from; and it is positive when width and height are positive. -/
theorem renderFrame_aspect_unguarded {α : Type} [LinearOrderedField α]
    (cosf sinf tanf sqrtf : α → α) (uniformLocation : Nat → String → Int) (stack : Mem α)
    (eng : Engine α) :
    (∀ x y : α, Call.fdiv x y ∈ (renderFrame cosf sinf tanf sqrtf uniformLocation stack eng).2 ↔
      (x = (eng.width : α) ∧ y = (eng.height : α))) ∧
    (((eng.height : α) = 0) ↔ eng.height = 0) ∧
    (renderFrame cosf sinf tanf sqrtf uniformLocation stack eng).2[8]? =
      some (Call.glUniformMatrix4fv (uniformLocation eng.program "uProjection") 1 false
        (read16 (mat4_perspective tanf stack PROJECTION 60
          ((eng.width : α) / (eng.height : α)) (1 / 10) 100) PROJECTION)) ∧
    (0 < eng.width → 0 < eng.height → 0 < (eng.width : α) / (eng.height : α)) := by
  refine ⟨?_, ?_, ?_, ?_⟩
  · intro x y
    simp [renderFrame]
  · exact Int.cast_eq_zero
  · have e : read16 (renderFrame_locals cosf sinf tanf sqrtf stack (renderFrame_angle eng.angle)
        eng.width eng.height) PROJECTION =
        read16 (mat4_perspective tanf stack PROJECTION 60
          ((eng.width : α) / (eng.height : α)) (1 / 10) 100) PROJECTION := by
      rw [renderFrame_locals_projection]
      simp [read16_eq, mat4_perspective]
    simp [renderFrame, e]
  · intro hw hh
    have hw' : (0 : α) < (eng.width : α) := by exact_mod_cast hw
    have hh' : (0 : α) < (eng.height : α) := by exact_mod_cast hh
    exact div_pos hw' hh'

/-- Witness for C10 as amended: the engine after a successful `initEGL` on a
1920 x 1080 surface divides 1920 by 1080 and the aspect is positive. -/
theorem renderFrame_aspect_unguarded_witness :
    Call.fdiv (1920 : ℝ) 1080 ∈
      (renderFrame Real.cos Real.sin Real.tan Real.sqrt (fun _ _ => 0) (Mem.mk fun _ _ => 0)
        (initEGL 1 eglAnswer1080p (engine : Engine ℝ)).2.1).2 ∧
    (0 : ℝ) < ((initEGL 1 eglAnswer1080p (engine : Engine ℝ)).2.1.width : ℝ) /
      ((initEGL 1 eglAnswer1080p (engine : Engine ℝ)).2.1.height : ℝ) := by
  have hh : (initEGL 1 eglAnswer1080p (engine : Engine ℝ)).2.1.height = 1080 := by
    simp [initEGL, eglAnswer1080p, EGL_NO_DISPLAY, EGL_NO_SURFACE, EGL_NO_CONTEXT]
  have hw : (initEGL 1 eglAnswer1080p (engine : Engine ℝ)).2.1.width = 1920 := by
    simp [initEGL, eglAnswer1080p, EGL_NO_DISPLAY, EGL_NO_SURFACE, EGL_NO_CONTEXT]
  have h := renderFrame_aspect_unguarded Real.cos Real.sin Real.tan Real.sqrt (fun _ _ => 0)
    (Mem.mk fun _ _ => 0) (initEGL 1 eglAnswer1080p (engine : Engine ℝ)).2.1
  refine ⟨(h.1 1920 1080).mpr ⟨by rw [hw]; norm_num, by rw [hh]; norm_num⟩, ?_⟩
  exact h.2.2.2 (by rw [hw]; decide) (by rw [hh]; decide)

end AndroidEngine
